import Mathlib

/-!
Verification of the `willitgo` reachability-probe server (`src/main.go`).

The server exposes a probe over HTTP: `GET /<host:port>` dials the target
directly; `GET /<host:port>?proxy=<addr>` dials the proxy and issues a
CONNECT tunnel request for the target, classifying the outcome.

We shallow-embed the request handlers as pure Lean functions over an
explicit network environment: the outcomes of the TCP dial, of the direct
checker, and of `http.ReadResponse` are inputs, and the handler's observable
behaviour (HTTP status, JSON body, copied headers, which network steps ran,
which deadlines were set, whether the connection was closed) is the output.

Go error values are modelled by `GoError`: a message plus the two dynamic
properties the code inspects (`err.(net.Error)` type assertion and
`err.Timeout()`). Time is modelled in abstract units: `now` is the instant
the proxy dial starts and `dialElapsed` is how long the dial takes, so the
`c.SetDeadline(time.Now().Add(p.Timeout))` call at main.go:124 sets the
absolute deadline `now + dialElapsed + timeout`.
-/

namespace WillItGo

/-- A Go `error` value as the handler observes it: its `Error()` text,
whether it satisfies the `net.Error` type assertion, and whether its
`Timeout()` method reports true. -/
structure GoError where
  msg : String
  isNetError : Bool
  isTimeout : Bool
deriving Repr, DecidableEq

/-- A parsed HTTP response from the proxy, as returned by
`http.ReadResponse`: its status code and header map. Header keys are in
canonical MIME form (`Content-Length`, not `content-length`), which is what
`http.ReadResponse` produces and what `Header.Set`/`Header.Del` normalise
to; the embedding works over those canonical keys. -/
structure ProxyResp where
  statusCode : Nat
  header : List (String × List String)
deriving Repr, DecidableEq

/-- The JSON body struct (main.go:16-20). The `Error` and `Proxy` fields
carry `omitempty`, so a field is present in the serialized JSON iff its
string is non-empty. -/
structure result where
  Status : String
  Error : String := ""
  Proxy : String := ""
deriving Repr, DecidableEq

/-- Environment for one proxy-tunnel probe: the outcome of
`dialer.Dial("tcp", proxy)` (main.go:113), how long that dial takes, and
the outcome of `http.ReadResponse` on the tunnel (main.go:128). -/
structure NetEnv where
  dial : Except GoError Unit
  dialElapsed : Nat
  readResp : Except GoError ProxyResp

/-- Environment for one direct probe: the outcome of
`checker.Check(host, port)` (main.go:50), a TCP connect-and-close. -/
structure PlainEnv where
  check : Except GoError Unit

/-! ## Target parsing: Go's `net.SplitHostPort`

Both handlers parse the path fragment with `net.SplitHostPort`
(main.go:42, main.go:103). The following is a direct translation of the
Go standard library's `SplitHostPort`, operating on the fragment as a
character list. Errors are `*net.AddrError` values whose `Error()` text is
`"address " + addr + ": " + why`. -/

/-- Index of the last occurrence of `c` in `s` (Go's `last(s, c)`,
with `none` for Go's `-1`). -/
def lastIdxOf (c : Char) (s : List Char) : Option Nat :=
  match s.reverse.findIdx? (fun x => x = c) with
  | none => none
  | some j => some (s.length - 1 - j)

/-- The `Error()` text of a `*net.AddrError`. -/
def addrErrMsg (addr : List Char) (why : String) : String :=
  "address " ++ String.mk addr ++ ": " ++ why

/-- Go's `net.SplitHostPort`, translated clause by clause. On success it
returns `(host, port)`. -/
def splitHostPort (s : List Char) : Except String (List Char × List Char) :=
  match lastIdxOf ':' s with
  | none => .error (addrErrMsg s "missing port in address")
  | some i =>
    if s.head? = some '[' then
      match s.findIdx? (fun x => x = ']') with
      | none => .error (addrErrMsg s "missing ']' in address")
      | some e =>
        if e + 1 = s.length then .error (addrErrMsg s "missing port in address")
        else if e + 1 = i then
          -- host = s[1:e]; the stray-bracket scans start at j=1 and k=e+1
          if (s.drop 1).contains '[' then .error (addrErrMsg s "unexpected '[' in address")
          else if (s.drop (e + 1)).contains ']' then .error (addrErrMsg s "unexpected ']' in address")
          else .ok ((s.drop 1).take (e - 1), s.drop (i + 1))
        else if s.get? (e + 1) = some ':' then .error (addrErrMsg s "too many colons in address")
        else .error (addrErrMsg s "missing port in address")
    else
      -- host = s[:i]; the stray-bracket scans cover the whole string (j=k=0)
      if (s.take i).contains ':' then .error (addrErrMsg s "too many colons in address")
      else if s.contains '[' then .error (addrErrMsg s "unexpected '[' in address")
      else if s.contains ']' then .error (addrErrMsg s "unexpected ']' in address")
      else .ok (s.take i, s.drop (i + 1))

/-! ## Header copying (main.go:166-171)

`w.Header()` is a map from canonical keys to value lists, embedded as an
association list with pairwise-distinct keys. `Header.Set` replaces the
whole value list of a key with the single given value; `Header.Del`
removes the key. The copy loop does, for each key `k` of the proxied
response header with values `vals`: `Set(k, v)` for each `v` in order,
then `Del("content-length")` (which normalises to `Content-Length`). -/

/-- Lookup of a key in a header association list. -/
def headerLookup : List (String × List String) → String → Option (List String)
  | [], _ => none
  | kv :: t, k => if kv.1 = k then some kv.2 else headerLookup t k

/-- `Header.Set k v`: replace the value list of `k` by `[v]`. The header is
a map, so only `headerLookup` is observable; the position of the rebound
entry in the association list is not significant. -/
def headerSet (h : List (String × List String)) (k v : String) : List (String × List String) :=
  (k, [v]) :: h.filter (fun kv => kv.1 ≠ k)

/-- `Header.Del k`: remove the key `k`. -/
def headerDel (h : List (String × List String)) (k : String) : List (String × List String) :=
  h.filter (fun kv => kv.1 ≠ k)

/-- One iteration of the outer copy loop (main.go:166-171): set each value
of the key in order, then delete `Content-Length`. -/
def copyStep (acc : List (String × List String)) (kv : String × List String) :
    List (String × List String) :=
  headerDel (kv.2.foldl (fun a v => headerSet a kv.1 v) acc) "Content-Length"

/-- The whole copy loop, starting from the empty outbound header map. -/
def copyHeaders (resH : List (String × List String)) : List (String × List String) :=
  resH.foldl copyStep []

/-! ## The proxy-tunnel handler (`proxyHandler.ServeHTTP`, main.go:101-173) -/

/-- Observable outcome of one proxy-tunnel probe: the HTTP status and JSON
body written, the headers produced by the copy loop, which network steps
ran, the absolute deadlines set on the proxy connection (in order), and
whether the connection was opened and closed. -/
structure ProbeOut where
  status : Nat
  body : result
  outHeader : List (String × List String)
  dialAttempted : Bool
  connectWritten : Bool
  readAttempted : Bool
  connOpened : Bool
  connClosed : Bool
  deadlines : List Nat
deriving Repr, DecidableEq

/-- Embedding of `proxyHandler.ServeHTTP` (main.go:101-173). `fragment` is
`r.URL.Path[1:]`, `proxy` the `proxy` query value, `t` the configured
timeout, `now` the instant the dial starts. The `defer c.Close()` at
main.go:122 runs on every return after a successful dial, so every branch
past the dial reports `connClosed := true`. The deadline at main.go:123-124
is `time.Now().Add(p.Timeout)` taken after the dial returned, i.e. the
absolute time `now + env.dialElapsed + t`, recorded only when `t > 0`. -/
def proxyServeHTTP (t : Nat) (fragment : List Char) (proxy : String)
    (env : NetEnv) (now : Nat) : ProbeOut :=
  match splitHostPort fragment with
  | .error em =>
      { status := 400
        body := { Status := "BAD_URL", Error := em, Proxy := proxy }
        outHeader := []
        dialAttempted := false, connectWritten := false, readAttempted := false
        connOpened := false, connClosed := false, deadlines := [] }
  | .ok _ =>
    match env.dial with
    | .error e =>
        { status := 400
          body := { Status := "PROXY_UNREACHABLE", Error := e.msg, Proxy := proxy }
          outHeader := []
          dialAttempted := true, connectWritten := false, readAttempted := false
          connOpened := false, connClosed := false, deadlines := [] }
    | .ok _ =>
      let dls := if t > 0 then [now + env.dialElapsed + t] else []
      match env.readResp with
      | .error err =>
          -- default classification 504 / PROXY_CONNECT_ERROR, then the
          -- `net.Error` type switch with its timeout sub-case (main.go:134-159)
          let classified :=
            if err.isNetError then
              if err.isTimeout then
                (504, result.mk "PROXY_CONNECT_ERROR" ("net error: " ++ err.msg) proxy)
              else
                (503, result.mk "HOST_CONNECT_FAIL" ("net error: " ++ err.msg) proxy)
            else
              (504, result.mk "PROXY_CONNECT_ERROR" err.msg proxy)
          { status := classified.1
            body := classified.2
            outHeader := []
            dialAttempted := true, connectWritten := true, readAttempted := true
            connOpened := true, connClosed := true, deadlines := dls }
      | .ok res =>
          { status := res.statusCode
            body := { Status := "OK", Proxy := proxy }
            outHeader := copyHeaders res.header
            dialAttempted := true, connectWritten := true, readAttempted := true
            connOpened := true, connClosed := true, deadlines := dls }

/-! ## The direct handler and the dispatcher (`Run`, main.go:28-72) -/

/-- Observable outcome of the direct probe path. `checkAttempted` records
whether `checker.Check` (the only network step of this path) ran. -/
structure PlainOut where
  status : Nat
  body : result
  checkAttempted : Bool
deriving Repr, DecidableEq

/-- Embedding of the `plain` handler inside `Run` (main.go:36-58):
parse the fragment, then `checker.Check(host, port)`. -/
def plainServeHTTP (fragment : List Char) (penv : PlainEnv) : PlainOut :=
  match splitHostPort fragment with
  | .error em =>
      { status := 400
        body := { Status := "INVALID_HOST", Error := em }
        checkAttempted := false }
  | .ok _ =>
    match penv.check with
    | .error e =>
        { status := 502
          body := { Status := "HOST_CONNECT_FAIL", Error := e.msg }
          checkAttempted := true }
    | .ok _ =>
        { status := 200, body := { Status := "OK" }, checkAttempted := true }

/-- `r.URL.Query().Get("proxy")`: the first value of the `proxy` query
parameter, or the empty string when the parameter is absent. `none` models
an absent parameter, `some v` a present one with first value `v`. -/
def getQuery (q : Option String) : String := q.getD ""

/-- Embedding of the dispatching handler returned by `Run` (main.go:59-71):
route to the proxy handler when `Query().Get("proxy")` is non-empty, else
to the plain handler; the pair is the HTTP status and JSON body written. -/
def Run (t : Nat) (fragment : List Char) (proxyQ : Option String)
    (penv : PlainEnv) (env : NetEnv) (now : Nat) : Nat × result :=
  if getQuery proxyQ ≠ "" then
    let o := proxyServeHTTP t fragment (getQuery proxyQ) env now
    (o.status, o.body)
  else
    let o := plainServeHTTP fragment penv
    (o.status, o.body)

/-- Modelled from the spec: the deadline C4 describes, a single budget
shared with the dial, counted from the instant the dial starts — so that
time spent dialing is deducted rather than a fresh full timeout being
granted after the dial. Kept for comparison with the code's deadline. -/
def sharedBudgetDeadline (dialStart timeout : Nat) : Nat := dialStart + timeout

/-! ## Concrete sample environments, used to instantiate the theorems -/

/-- Dial succeeds; reading the response fails with a non-network error. -/
def envReadPlainErr : NetEnv :=
  { dial := .ok (), dialElapsed := 2
    readResp := .error { msg := "malformed HTTP response", isNetError := false, isTimeout := false } }

/-- Dial succeeds; reading the response fails with a network, non-timeout error. -/
def envReadNetErr : NetEnv :=
  { dial := .ok (), dialElapsed := 2
    readResp := .error { msg := "connection reset", isNetError := true, isTimeout := false } }

/-- Dial succeeds; reading the response fails with a network timeout. -/
def envReadTimeoutErr : NetEnv :=
  { dial := .ok (), dialElapsed := 2
    readResp := .error { msg := "i/o timeout", isNetError := true, isTimeout := true } }

/-- Dial fails. -/
def envDialErr : NetEnv :=
  { dial := .error { msg := "connection refused", isNetError := true, isTimeout := false }
    dialElapsed := 0
    readResp := .error { msg := "unused", isNetError := false, isTimeout := false } }

/-- Dial succeeds; the proxy replies 403 with a Content-Length header and a
multi-valued header. -/
def envReadResponds : NetEnv :=
  { dial := .ok (), dialElapsed := 3
    readResp := .ok { statusCode := 403
                      header := [("Content-Length", ["12"]), ("X-Trace", ["a", "b"])] } }

/-- Direct checker succeeds. -/
def penvCheckOk : PlainEnv := { check := .ok () }

/-- Direct checker fails. -/
def penvCheckErr : PlainEnv :=
  { check := .error { msg := "connection refused", isNetError := true, isTimeout := false } }

/-! ## Helper lemmas -/

theorem headerLookup_filter_self (h : List (String × List String)) (k : String) :
    headerLookup (h.filter (fun kv => kv.1 ≠ k)) k = none := by
  induction h with
  | nil => rfl
  | cons kv t ih =>
    rw [List.filter_cons]
    by_cases hk : kv.1 = k
    · rw [if_neg (by simp [hk])]
      exact ih
    · rw [if_pos (by simp [hk])]
      simp only [headerLookup]
      rw [if_neg hk]
      exact ih

theorem headerLookup_filter_other (h : List (String × List String)) (k k' : String)
    (hne : k ≠ k') :
    headerLookup (h.filter (fun kv => kv.1 ≠ k')) k = headerLookup h k := by
  induction h with
  | nil => rfl
  | cons kv t ih =>
    rw [List.filter_cons]
    by_cases h1 : kv.1 = k'
    · rw [if_neg (by simp [h1])]
      rw [ih]
      simp only [headerLookup]
      rw [if_neg (show ¬kv.1 = k by rw [h1]; exact fun hh => hne hh.symm)]
    · rw [if_pos (by simp [h1])]
      simp only [headerLookup]
      by_cases h2 : kv.1 = k
      · rw [if_pos h2, if_pos h2]
      · rw [if_neg h2, if_neg h2, ih]

theorem headerLookup_set_self (h : List (String × List String)) (k v : String) :
    headerLookup (headerSet h k v) k = some [v] := by
  simp [headerSet, headerLookup]

theorem headerLookup_set_other (h : List (String × List String)) (k v k' : String)
    (hne : k' ≠ k) :
    headerLookup (headerSet h k v) k' = headerLookup h k' := by
  unfold headerSet
  rw [headerLookup, if_neg (fun hh => hne hh.symm)]
  exact headerLookup_filter_other h k' k hne

theorem headerLookup_setFold_self (vs : List String) (acc : List (String × List String))
    (k v : String) (hlast : vs.getLast? = some v) :
    headerLookup (vs.foldl (fun a u => headerSet a k u) acc) k = some [v] := by
  induction vs generalizing acc with
  | nil => cases hlast
  | cons u t ih =>
    cases t with
    | nil =>
      simp only [List.getLast?_singleton, Option.some.injEq] at hlast
      subst hlast
      simp [List.foldl, headerLookup_set_self]
    | cons u2 t2 =>
      rw [List.foldl_cons]
      exact ih (headerSet acc k u) (by simpa [List.getLast?_cons_cons] using hlast)

theorem headerLookup_setFold_other (vs : List String) (acc : List (String × List String))
    (k k' : String) (hne : k' ≠ k) :
    headerLookup (vs.foldl (fun a u => headerSet a k u) acc) k' = headerLookup acc k' := by
  induction vs generalizing acc with
  | nil => rfl
  | cons u t ih => rw [List.foldl_cons, ih, headerLookup_set_other _ _ _ _ hne]

theorem headerLookup_copyStep_contentLength (acc : List (String × List String))
    (kv : String × List String) :
    headerLookup (copyStep acc kv) "Content-Length" = none := by
  unfold copyStep headerDel
  exact headerLookup_filter_self _ _

theorem headerLookup_copyStep_self (acc : List (String × List String)) (k v : String)
    (vs : List String) (hlast : vs.getLast? = some v) (hCL : k ≠ "Content-Length") :
    headerLookup (copyStep acc (k, vs)) k = some [v] := by
  unfold copyStep headerDel
  rw [headerLookup_filter_other _ _ _ hCL]
  exact headerLookup_setFold_self _ _ _ _ hlast

theorem headerLookup_copyStep_other (acc : List (String × List String))
    (kv : String × List String) (k : String) (h1 : k ≠ kv.1) (hCL : k ≠ "Content-Length") :
    headerLookup (copyStep acc kv) k = headerLookup acc k := by
  unfold copyStep headerDel
  rw [headerLookup_filter_other _ _ _ hCL]
  exact headerLookup_setFold_other _ _ _ _ h1

theorem headerLookup_copyFold_notMem (l : List (String × List String))
    (acc : List (String × List String)) (k : String)
    (hk : ∀ kv ∈ l, k ≠ kv.1) (hCL : k ≠ "Content-Length") :
    headerLookup (l.foldl copyStep acc) k = headerLookup acc k := by
  induction l generalizing acc with
  | nil => rfl
  | cons kv t ih =>
    rw [List.foldl_cons, ih _ (fun x hx => hk x (List.mem_cons_of_mem _ hx)),
      headerLookup_copyStep_other _ _ _ (hk kv (List.mem_cons_self _ _)) hCL]

theorem headerLookup_copyFold_mem (l : List (String × List String))
    (acc : List (String × List String)) (k v : String) (vs : List String)
    (hmem : (k, vs) ∈ l) (hlast : vs.getLast? = some v)
    (hCL : k ≠ "Content-Length") (hnd : (l.map Prod.fst).Nodup) :
    headerLookup (l.foldl copyStep acc) k = some [v] := by
  induction l generalizing acc with
  | nil => exact absurd hmem (List.not_mem_nil _)
  | cons kv t ih =>
    rw [List.map_cons, List.nodup_cons] at hnd
    rcases List.mem_cons.mp hmem with heq | hmem'
    · rw [List.foldl_cons]
      have hhead : kv.1 = k := (congrArg Prod.fst heq).symm
      have hknotin : ∀ x ∈ t, k ≠ x.1 := by
        intro x hx hkx
        exact hnd.1 (by rw [hhead, hkx]; exact List.mem_map_of_mem _ hx)
      rw [headerLookup_copyFold_notMem t _ k hknotin hCL, ← heq]
      exact headerLookup_copyStep_self _ _ _ _ hlast hCL
    · rw [List.foldl_cons]
      exact ih _ hmem' hnd.2

theorem copyHeaders_contentLength_none (resH : List (String × List String)) :
    headerLookup (copyHeaders resH) "Content-Length" = none := by
  unfold copyHeaders
  induction resH using List.reverseRecOn with
  | nil => rfl
  | append_singleton l kv _ =>
    rw [List.foldl_append, List.foldl_cons, List.foldl_nil]
    exact headerLookup_copyStep_contentLength _ _

theorem addrErrMsg_ne_empty (addr : List Char) (why : String) :
    addrErrMsg addr why ≠ "" := by
  intro h
  have h2 := congrArg String.data h
  simp [addrErrMsg, String.data_append] at h2

theorem netErrorText_ne_empty (m : String) : ("net error: " ++ m) ≠ "" := by
  intro h
  have h2 := congrArg String.data h
  simp [String.data_append] at h2

theorem splitHostPort_error_ne_empty (s : List Char) (em : String)
    (h : splitHostPort s = .error em) : em ≠ "" := by
  intro hem
  subst hem
  unfold splitHostPort at h
  repeat' split at h
  all_goals
    first
    | exact Except.noConfusion h
    | exact addrErrMsg_ne_empty _ _ (Except.error.inj h)

theorem head_ne_of_not_contains (s : List Char) (c : Char) (h : s.contains c = false) :
    ¬ s.head? = some c := by
  intro hh
  cases s with
  | nil => cases hh
  | cons a t =>
    simp only [List.head?, Option.some.injEq] at hh
    subst hh
    simp [List.contains_cons] at h

/-! ## Claim theorems -/

/-- C1: when reading/parsing the proxy's response fails, the result is
classified per the spec's table: an error that is not network-shaped yields
status PROXY_CONNECT_ERROR with HTTP 504; a network-shaped error that does
not report timeout yields HOST_CONNECT_FAIL with HTTP 503; a network-shaped
error that reports timeout yields PROXY_CONNECT_ERROR with HTTP 504. -/
theorem c1_read_error_classification (t : Nat) (f : List Char) (p : String)
    (env : NetEnv) (now : Nat) (hp : List Char × List Char) (e : GoError)
    (hparse : splitHostPort f = .ok hp) (hdial : env.dial = .ok ())
    (hread : env.readResp = .error e) :
    (e.isNetError = false →
      (proxyServeHTTP t f p env now).body.Status = "PROXY_CONNECT_ERROR"
      ∧ (proxyServeHTTP t f p env now).status = 504)
    ∧ (e.isNetError = true → e.isTimeout = false →
      (proxyServeHTTP t f p env now).body.Status = "HOST_CONNECT_FAIL"
      ∧ (proxyServeHTTP t f p env now).status = 503)
    ∧ (e.isNetError = true → e.isTimeout = true →
      (proxyServeHTTP t f p env now).body.Status = "PROXY_CONNECT_ERROR"
      ∧ (proxyServeHTTP t f p env now).status = 504) := by
  simp only [proxyServeHTTP, hparse, hdial, hread]
  rcases e with ⟨m, bN, bT⟩
  cases bN <;> cases bT <;> simp

/-- Witness for C1 at a concrete input: a network-shaped, non-timeout read
error is classified HOST_CONNECT_FAIL with HTTP 503. -/
theorem c1_read_error_classification_witness :
    (splitHostPort ['h', ':', '1'] = .ok (['h'], ['1'])
      ∧ envReadNetErr.dial = .ok ()
      ∧ envReadNetErr.readResp
          = .error { msg := "connection reset", isNetError := true, isTimeout := false })
    ∧ ((proxyServeHTTP 5 ['h', ':', '1'] "px:1" envReadNetErr 0).body.Status
          = "HOST_CONNECT_FAIL"
      ∧ (proxyServeHTTP 5 ['h', ':', '1'] "px:1" envReadNetErr 0).status = 503) := by
  have h1 : splitHostPort ['h', ':', '1'] = .ok (['h'], ['1']) := rfl
  have h2 : envReadNetErr.dial = .ok () := rfl
  have h3 : envReadNetErr.readResp
      = .error { msg := "connection reset", isNetError := true, isTimeout := false } := rfl
  exact ⟨⟨h1, h2, h3⟩,
    (c1_read_error_classification 5 ['h', ':', '1'] "px:1" envReadNetErr 0
      (['h'], ['1']) _ h1 h2 h3).2.1 rfl rfl⟩

/-- C3: when the proxy's response is read and parsed successfully, the
result has status OK with the proxy field set to the supplied address, the
outbound HTTP status equals the proxy's own reported status code
(pass-through), and no Content-Length from the proxied response appears on
the outbound headers. -/
theorem c3_success_passthrough (t : Nat) (f : List Char) (p : String)
    (env : NetEnv) (now : Nat) (hp : List Char × List Char) (res : ProxyResp)
    (hparse : splitHostPort f = .ok hp) (hdial : env.dial = .ok ())
    (hread : env.readResp = .ok res) :
    (proxyServeHTTP t f p env now).body.Status = "OK"
    ∧ (proxyServeHTTP t f p env now).body.Proxy = p
    ∧ (proxyServeHTTP t f p env now).status = res.statusCode
    ∧ headerLookup (proxyServeHTTP t f p env now).outHeader "Content-Length" = none := by
  simp [proxyServeHTTP, hparse, hdial, hread, copyHeaders_contentLength_none]

/-- Witness for C3 at a concrete input: the proxy replies 403, and 403 is
passed through while its Content-Length is dropped. -/
theorem c3_success_passthrough_witness :
    (splitHostPort ['h', ':', '1'] = .ok (['h'], ['1'])
      ∧ envReadResponds.dial = .ok ()
      ∧ envReadResponds.readResp
          = .ok { statusCode := 403
                  header := [("Content-Length", ["12"]), ("X-Trace", ["a", "b"])] })
    ∧ ((proxyServeHTTP 5 ['h', ':', '1'] "px:1" envReadResponds 0).body.Status = "OK"
      ∧ (proxyServeHTTP 5 ['h', ':', '1'] "px:1" envReadResponds 0).body.Proxy = "px:1"
      ∧ (proxyServeHTTP 5 ['h', ':', '1'] "px:1" envReadResponds 0).status = 403
      ∧ headerLookup (proxyServeHTTP 5 ['h', ':', '1'] "px:1" envReadResponds 0).outHeader
          "Content-Length" = none) := by
  have h1 : splitHostPort ['h', ':', '1'] = .ok (['h'], ['1']) := rfl
  have h2 : envReadResponds.dial = .ok () := rfl
  have h3 : envReadResponds.readResp
      = .ok { statusCode := 403
              header := [("Content-Length", ["12"]), ("X-Trace", ["a", "b"])] } := rfl
  exact ⟨⟨h1, h2, h3⟩,
    c3_success_passthrough 5 ['h', ':', '1'] "px:1" envReadResponds 0
      (['h'], ['1']) _ h1 h2 h3⟩

/-- C6: when the TCP dial of the proxy fails, the result is
PROXY_UNREACHABLE carrying the dial error text and echoing the supplied
proxy address, with HTTP 400, and no tunnel write or read is attempted. -/
theorem c6_dial_failure (t : Nat) (f : List Char) (p : String) (env : NetEnv)
    (now : Nat) (hp : List Char × List Char) (e : GoError)
    (hparse : splitHostPort f = .ok hp) (hdial : env.dial = .error e) :
    (proxyServeHTTP t f p env now).status = 400
    ∧ (proxyServeHTTP t f p env now).body
        = { Status := "PROXY_UNREACHABLE", Error := e.msg, Proxy := p }
    ∧ (proxyServeHTTP t f p env now).connectWritten = false
    ∧ (proxyServeHTTP t f p env now).readAttempted = false := by
  simp [proxyServeHTTP, hparse, hdial]

/-- Witness for C6 at a concrete input. -/
theorem c6_dial_failure_witness :
    (splitHostPort ['h', ':', '1'] = .ok (['h'], ['1'])
      ∧ envDialErr.dial
          = .error { msg := "connection refused", isNetError := true, isTimeout := false })
    ∧ ((proxyServeHTTP 5 ['h', ':', '1'] "px:1" envDialErr 0).status = 400
      ∧ (proxyServeHTTP 5 ['h', ':', '1'] "px:1" envDialErr 0).body
          = { Status := "PROXY_UNREACHABLE", Error := "connection refused", Proxy := "px:1" }
      ∧ (proxyServeHTTP 5 ['h', ':', '1'] "px:1" envDialErr 0).connectWritten = false
      ∧ (proxyServeHTTP 5 ['h', ':', '1'] "px:1" envDialErr 0).readAttempted = false) := by
  have h1 : splitHostPort ['h', ':', '1'] = .ok (['h'], ['1']) := rfl
  have h2 : envDialErr.dial
      = .error { msg := "connection refused", isNetError := true, isTimeout := false } := rfl
  exact ⟨⟨h1, h2⟩,
    c6_dial_failure 5 ['h', ':', '1'] "px:1" envDialErr 0 (['h'], ['1']) _ h1 h2⟩

/-- C7: on the proxy path, a target that fails parsing yields HTTP 400 with
status BAD_URL, the parse error text and the supplied proxy address, and no
dial of the proxy is attempted. -/
theorem c7_parse_failure_before_dial (t : Nat) (f : List Char) (p : String)
    (env : NetEnv) (now : Nat) (em : String)
    (hparse : splitHostPort f = .error em) :
    (proxyServeHTTP t f p env now).status = 400
    ∧ (proxyServeHTTP t f p env now).body
        = { Status := "BAD_URL", Error := em, Proxy := p }
    ∧ (proxyServeHTTP t f p env now).dialAttempted = false
    ∧ (proxyServeHTTP t f p env now).connOpened = false := by
  simp [proxyServeHTTP, hparse]

/-- Witness for C7 at a concrete input: the portless target `xyz`. -/
theorem c7_parse_failure_before_dial_witness :
    (splitHostPort ['x', 'y', 'z'] = .error "address xyz: missing port in address")
    ∧ ((proxyServeHTTP 5 ['x', 'y', 'z'] "px:1" envDialErr 0).status = 400
      ∧ (proxyServeHTTP 5 ['x', 'y', 'z'] "px:1" envDialErr 0).body
          = { Status := "BAD_URL", Error := "address xyz: missing port in address",
              Proxy := "px:1" }
      ∧ (proxyServeHTTP 5 ['x', 'y', 'z'] "px:1" envDialErr 0).dialAttempted = false
      ∧ (proxyServeHTTP 5 ['x', 'y', 'z'] "px:1" envDialErr 0).connOpened = false) := by
  have h1 : splitHostPort ['x', 'y', 'z'] = .error "address xyz: missing port in address" := rfl
  exact ⟨h1, c7_parse_failure_before_dial 5 ['x', 'y', 'z'] "px:1" envDialErr 0 _ h1⟩

/-- C8: once the proxy dial has succeeded, the connection is closed on every
exit path of the probe — the read/parse-failure branches and the success
branch alike. -/
theorem c8_conn_closed_after_dial (t : Nat) (f : List Char) (p : String)
    (env : NetEnv) (now : Nat) (hp : List Char × List Char)
    (hparse : splitHostPort f = .ok hp) (hdial : env.dial = .ok ()) :
    (proxyServeHTTP t f p env now).connOpened = true
    ∧ (proxyServeHTTP t f p env now).connClosed = true := by
  simp only [proxyServeHTTP, hparse, hdial]
  cases hre : env.readResp <;> simp

/-- Witness for C8 at a concrete input: the read-failure exit path still
closes the connection. -/
theorem c8_conn_closed_after_dial_witness :
    (splitHostPort ['h', ':', '1'] = .ok (['h'], ['1'])
      ∧ envReadTimeoutErr.dial = .ok ())
    ∧ ((proxyServeHTTP 5 ['h', ':', '1'] "px:1" envReadTimeoutErr 0).connOpened = true
      ∧ (proxyServeHTTP 5 ['h', ':', '1'] "px:1" envReadTimeoutErr 0).connClosed = true) := by
  have h1 : splitHostPort ['h', ':', '1'] = .ok (['h'], ['1']) := rfl
  have h2 : envReadTimeoutErr.dial = .ok () := rfl
  exact ⟨⟨h1, h2⟩,
    c8_conn_closed_after_dial 5 ['h', ':', '1'] "px:1" envReadTimeoutErr 0 (['h'], ['1']) h1 h2⟩

/-- C2 counterexample: the fragment `abc:` splits on its last colon into
the non-empty host `abc` and an EMPTY port, which the claim says must be a
parse failure; the code's parser (Go's `net.SplitHostPort`) accepts it, and
the probe proceeds past parsing to report OK. -/
theorem c2_counterexample :
    splitHostPort ['a', 'b', 'c', ':'] = .ok (['a', 'b', 'c'], [])
    ∧ (plainServeHTTP ['a', 'b', 'c', ':'] penvCheckOk).body.Status = "OK" :=
  ⟨rfl, rfl⟩

/-- C2 amended: the parser splits on the last colon, but accepts empty
hosts and empty ports; on bracket-free fragments it fails exactly when no
colon is present (which covers the empty fragment) or when the part before
the last colon contains another colon, and succeeds otherwise, returning
the text before the last colon as host and after it as port. Any parse
failure yields HTTP 400 with the parse-failure status and no network
step, on both the proxy path and the direct path. -/
theorem c2_parser_characterization (s : List Char)
    (h1 : s.contains '[' = false) (h2 : s.contains ']' = false) :
    (lastIdxOf ':' s = none →
      splitHostPort s = .error (addrErrMsg s "missing port in address"))
    ∧ (∀ i, lastIdxOf ':' s = some i →
        ((s.take i).contains ':' = true →
          splitHostPort s = .error (addrErrMsg s "too many colons in address"))
        ∧ ((s.take i).contains ':' = false →
          splitHostPort s = .ok (s.take i, s.drop (i + 1))))
    ∧ (∀ em, splitHostPort s = .error em →
        (∀ t p env now, (proxyServeHTTP t s p env now).status = 400
          ∧ (proxyServeHTTP t s p env now).body.Status = "BAD_URL"
          ∧ (proxyServeHTTP t s p env now).dialAttempted = false)
        ∧ (∀ penv, (plainServeHTTP s penv).status = 400
          ∧ (plainServeHTTP s penv).body.Status = "INVALID_HOST"
          ∧ (plainServeHTTP s penv).checkAttempted = false)) := by
  have hhead : ¬ s.head? = some '[' := head_ne_of_not_contains s '[' h1
  refine ⟨?_, ?_, ?_⟩
  · intro hn
    unfold splitHostPort
    rw [hn]
  · intro i hi
    constructor
    · intro hc
      unfold splitHostPort
      simp only [hi]
      rw [if_neg hhead, if_pos hc]
    · intro hc
      unfold splitHostPort
      simp only [hi]
      rw [if_neg hhead, if_neg (by simpa using hc), if_neg (by simpa using h1),
        if_neg (by simpa using h2)]
  · intro em hsp
    constructor
    · intro t p env now
      simp [proxyServeHTTP, hsp]
    · intro penv
      simp [plainServeHTTP, hsp]

/-- Witness for C2's amended theorem at a concrete input: `a:b` parses to
host `a`, port `b`. -/
theorem c2_parser_characterization_witness :
    (['a', ':', 'b'].contains '[' = false ∧ ['a', ':', 'b'].contains ']' = false)
    ∧ splitHostPort ['a', ':', 'b'] = .ok (['a'], ['b']) := by
  have h1 : ['a', ':', 'b'].contains '[' = false := rfl
  have h2 : ['a', ':', 'b'].contains ']' = false := rfl
  exact ⟨⟨h1, h2⟩, ((c2_parser_characterization ['a', ':', 'b'] h1 h2).2.1 1 rfl).2 rfl⟩

/-- C4 counterexample: with timeout 5, a dial starting at time 0 that takes
3 units leads the code to set the connection deadline to absolute time 8 —
a fresh full timeout granted after the successful dial — whereas the single
shared budget the claim describes would expire at time 5. -/
theorem c4_counterexample :
    (proxyServeHTTP 5 ['h', ':', '1'] "px:1" envReadResponds 0).deadlines = [8]
    ∧ sharedBudgetDeadline 0 5 = 5
    ∧ ¬ (proxyServeHTTP 5 ['h', ':', '1'] "px:1" envReadResponds 0).deadlines
        = [sharedBudgetDeadline 0 5] :=
  ⟨rfl, rfl, by decide⟩

/-- C4 amended: the configured timeout is a single duration used twice: as
the dial's connect timeout, and — after a successful dial — as one fresh
absolute deadline, dial-completion time plus timeout, set exactly once on
the connection and covering the request write and the response read
together (not re-armed between them). It is not a budget shared with the
dial: time spent dialing is not deducted. With timeout zero, no deadline
is set. -/
theorem c4_deadline_fresh_after_dial (t : Nat) (f : List Char) (p : String)
    (env : NetEnv) (now : Nat) (hp : List Char × List Char)
    (hparse : splitHostPort f = .ok hp) (hdial : env.dial = .ok ()) :
    (0 < t → (proxyServeHTTP t f p env now).deadlines = [now + env.dialElapsed + t])
    ∧ (t = 0 → (proxyServeHTTP t f p env now).deadlines = []) := by
  simp only [proxyServeHTTP, hparse, hdial]
  cases hre : env.readResp <;> constructor <;> intro ht <;> simp [ht]

/-- Witness for C4's amended theorem at a concrete input: timeout 5, dial
taking 2 units from time 0, deadline set at absolute time 7. -/
theorem c4_deadline_fresh_after_dial_witness :
    (splitHostPort ['h', ':', '1'] = .ok (['h'], ['1'])
      ∧ envReadNetErr.dial = .ok ())
    ∧ ((0 < 5 →
        (proxyServeHTTP 5 ['h', ':', '1'] "px:1" envReadNetErr 0).deadlines = [0 + 2 + 5])
      ∧ (5 = 0 →
        (proxyServeHTTP 5 ['h', ':', '1'] "px:1" envReadNetErr 0).deadlines = [])) := by
  have h1 : splitHostPort ['h', ':', '1'] = .ok (['h'], ['1']) := rfl
  have h2 : envReadNetErr.dial = .ok () := rfl
  exact ⟨⟨h1, h2⟩,
    c4_deadline_fresh_after_dial 5 ['h', ':', '1'] "px:1" envReadNetErr 0 (['h'], ['1']) h1 h2⟩

/-- C5 counterexample: the proxy's reply carries the multi-valued header
X-Trace with values a then b; the claim requires both values on the
outbound response, but the copy loop calls Set (replace) per value, so only
the last value b survives. -/
theorem c5_counterexample :
    headerLookup (proxyServeHTTP 5 ['h', ':', '1'] "px:1" envReadResponds 0).outHeader
        "X-Trace" = some ["b"]
    ∧ ¬ headerLookup (proxyServeHTTP 5 ['h', ':', '1'] "px:1" envReadResponds 0).outHeader
        "X-Trace" = some ["a", "b"] :=
  ⟨rfl, by decide⟩

/-- C5 amended: on a successfully parsed proxy response, every header key
of the reply other than Content-Length is copied onto the outbound
response, but carrying only the LAST value of that header (Header.Set
replaces rather than appends, so earlier values of a multi-valued header
are dropped); the Content-Length header is never copied. -/
theorem c5_headers_last_value (t : Nat) (f : List Char) (p : String)
    (env : NetEnv) (now : Nat) (hp : List Char × List Char) (res : ProxyResp)
    (hparse : splitHostPort f = .ok hp) (hdial : env.dial = .ok ())
    (hread : env.readResp = .ok res)
    (hnd : (res.header.map Prod.fst).Nodup) :
    (∀ k vs v, (k, vs) ∈ res.header → vs.getLast? = some v → k ≠ "Content-Length" →
      headerLookup (proxyServeHTTP t f p env now).outHeader k = some [v])
    ∧ headerLookup (proxyServeHTTP t f p env now).outHeader "Content-Length" = none := by
  have houth : (proxyServeHTTP t f p env now).outHeader = copyHeaders res.header := by
    simp [proxyServeHTTP, hparse, hdial, hread]
  rw [houth]
  exact ⟨fun k vs v hmem hlast hCL =>
      headerLookup_copyFold_mem _ _ _ _ _ hmem hlast hCL hnd,
    copyHeaders_contentLength_none _⟩

/-- Witness for C5's amended theorem at a concrete input: of X-Trace's
values a, b only b is copied. -/
theorem c5_headers_last_value_witness :
    (splitHostPort ['h', ':', '1'] = .ok (['h'], ['1'])
      ∧ envReadResponds.dial = .ok ()
      ∧ envReadResponds.readResp
          = .ok { statusCode := 403
                  header := [("Content-Length", ["12"]), ("X-Trace", ["a", "b"])] }
      ∧ (([("Content-Length", ["12"]), ("X-Trace", ["a", "b"])].map Prod.fst).Nodup
          ∧ ("X-Trace", ["a", "b"]) ∈ [("Content-Length", ["12"]), ("X-Trace", ["a", "b"])]
          ∧ (["a", "b"].getLast? = some "b") ∧ "X-Trace" ≠ "Content-Length"))
    ∧ headerLookup (proxyServeHTTP 5 ['h', ':', '1'] "px:1" envReadResponds 0).outHeader
        "X-Trace" = some ["b"] := by
  have h1 : splitHostPort ['h', ':', '1'] = .ok (['h'], ['1']) := rfl
  have h2 : envReadResponds.dial = .ok () := rfl
  have h3 : envReadResponds.readResp
      = .ok { statusCode := 403
              header := [("Content-Length", ["12"]), ("X-Trace", ["a", "b"])] } := rfl
  have h4 : (([("Content-Length", ["12"]), ("X-Trace", ["a", "b"])] :
      List (String × List String)).map Prod.fst).Nodup := by decide
  have h5 : ("X-Trace", ["a", "b"]) ∈
      [(("Content-Length" : String), (["12"] : List String)), ("X-Trace", ["a", "b"])] := by
    simp
  have h6 : (["a", "b"] : List String).getLast? = some "b" := rfl
  have h7 : ("X-Trace" : String) ≠ "Content-Length" := by decide
  exact ⟨⟨h1, h2, h3, h4, h5, h6, h7⟩,
    (c5_headers_last_value 5 ['h', ':', '1'] "px:1" envReadResponds 0 (['h'], ['1'])
        _ h1 h2 h3 h4).1 "X-Trace" ["a", "b"] "b" h5 h6 h7⟩

/-- C9: every result returned through the dispatcher satisfies the field
invariants: the error field is present (non-empty, hence serialized despite
omitempty) iff the status is not OK, and the proxy field is present iff a
proxy was used, i.e. the proxy query parameter was non-empty. The
hypotheses state that the environment's error values carry non-empty
texts, as Go error strings do. -/
theorem c9_result_field_invariants (t : Nat) (f : List Char) (q : Option String)
    (penv : PlainEnv) (env : NetEnv) (now : Nat)
    (hc : ∀ e, penv.check = .error e → ¬ e.msg = "")
    (hd : ∀ e, env.dial = .error e → ¬ e.msg = "")
    (hr : ∀ e, env.readResp = .error e → ¬ e.msg = "") :
    (¬ (Run t f q penv env now).2.Error = ""
        ↔ ¬ (Run t f q penv env now).2.Status = "OK")
    ∧ (¬ (Run t f q penv env now).2.Proxy = "" ↔ ¬ getQuery q = "") := by
  by_cases hq : getQuery q = ""
  · have hrun : Run t f q penv env now
        = ((plainServeHTTP f penv).status, (plainServeHTTP f penv).body) := by
      unfold Run
      rw [if_neg (not_not_intro hq)]
    rw [hrun]
    cases hsp : splitHostPort f with
    | error em =>
      have hne := splitHostPort_error_ne_empty f em hsp
      simp [plainServeHTTP, hsp, hne, hq]
    | ok hp =>
      cases hchk : penv.check with
      | error e =>
        have hne := hc e hchk
        simp [plainServeHTTP, hsp, hchk, hne, hq]
      | ok u =>
        cases u
        simp [plainServeHTTP, hsp, hchk, hq]
  · have hrun : Run t f q penv env now
        = ((proxyServeHTTP t f (getQuery q) env now).status,
           (proxyServeHTTP t f (getQuery q) env now).body) := by
      unfold Run
      rw [if_pos hq]
    rw [hrun]
    cases hsp : splitHostPort f with
    | error em =>
      have hne := splitHostPort_error_ne_empty f em hsp
      simp [proxyServeHTTP, hsp, hne, hq]
    | ok hp =>
      cases hdl : env.dial with
      | error e =>
        have hne := hd e hdl
        simp [proxyServeHTTP, hsp, hdl, hne, hq]
      | ok u =>
        cases u
        cases hre : env.readResp with
        | error err =>
          have hmsg := hr err hre
          rcases err with ⟨m, bN, bT⟩
          cases bN <;> cases bT <;>
            simp [proxyServeHTTP, hsp, hdl, hre, hmsg, hq, netErrorText_ne_empty]
        | ok res =>
          simp [proxyServeHTTP, hsp, hdl, hre, hq]

/-- Witness for C9 at a concrete input: a proxy-path request whose tunnel
succeeds. -/
theorem c9_result_field_invariants_witness :
    ((∀ e, penvCheckOk.check = .error e → ¬ e.msg = "")
      ∧ (∀ e, envReadResponds.dial = .error e → ¬ e.msg = "")
      ∧ (∀ e, envReadResponds.readResp = .error e → ¬ e.msg = ""))
    ∧ ((¬ (Run 5 ['h', ':', '1'] (some "px:1") penvCheckOk envReadResponds 0).2.Error = ""
          ↔ ¬ (Run 5 ['h', ':', '1'] (some "px:1") penvCheckOk envReadResponds 0).2.Status
              = "OK")
      ∧ (¬ (Run 5 ['h', ':', '1'] (some "px:1") penvCheckOk envReadResponds 0).2.Proxy = ""
          ↔ ¬ getQuery (some "px:1") = "")) := by
  have hc : ∀ e, penvCheckOk.check = Except.error e → ¬ e.msg = "" :=
    fun e h => Except.noConfusion h
  have hd : ∀ e, envReadResponds.dial = Except.error e → ¬ e.msg = "" :=
    fun e h => Except.noConfusion h
  have hr : ∀ e, envReadResponds.readResp = Except.error e → ¬ e.msg = "" :=
    fun e h => Except.noConfusion h
  exact ⟨⟨hc, hd, hr⟩,
    c9_result_field_invariants 5 ['h', ':', '1'] (some "px:1") penvCheckOk
      envReadResponds 0 hc hd hr⟩

/-- C10: a request whose proxy query parameter is present but empty is
dispatched exactly as if the parameter were absent: the direct probe runs,
and none of the proxy-path statuses BAD_URL, PROXY_UNREACHABLE,
PROXY_CONNECT_ERROR can result. -/
theorem c10_empty_proxy_param (t : Nat) (f : List Char) (penv : PlainEnv)
    (env : NetEnv) (now : Nat) :
    Run t f (some "") penv env now = Run t f none penv env now
    ∧ Run t f (some "") penv env now
        = ((plainServeHTTP f penv).status, (plainServeHTTP f penv).body)
    ∧ ¬ (Run t f (some "") penv env now).2.Status = "BAD_URL"
    ∧ ¬ (Run t f (some "") penv env now).2.Status = "PROXY_UNREACHABLE"
    ∧ ¬ (Run t f (some "") penv env now).2.Status = "PROXY_CONNECT_ERROR" := by
  have hrun : Run t f (some "") penv env now
      = ((plainServeHTTP f penv).status, (plainServeHTTP f penv).body) := by
    unfold Run
    rw [if_neg (show ¬ getQuery (some "") ≠ "" from not_not_intro rfl)]
  have hrun2 : Run t f none penv env now
      = ((plainServeHTTP f penv).status, (plainServeHTTP f penv).body) := by
    unfold Run
    rw [if_neg (show ¬ getQuery none ≠ "" from not_not_intro rfl)]
  have hstat : (plainServeHTTP f penv).body.Status = "INVALID_HOST"
      ∨ (plainServeHTTP f penv).body.Status = "HOST_CONNECT_FAIL"
      ∨ (plainServeHTTP f penv).body.Status = "OK" := by
    unfold plainServeHTTP
    rcases hsp : splitHostPort f with em | hp
    · exact Or.inl rfl
    · rcases hchk : penv.check with e | u
      · exact Or.inr (Or.inl rfl)
      · exact Or.inr (Or.inr rfl)
  refine ⟨hrun.trans hrun2.symm, hrun, ?_, ?_, ?_⟩ <;>
    rw [hrun] <;>
    intro h <;>
    rcases hstat with hst | hst | hst <;>
    exact absurd (hst.symm.trans h) (by decide)

end WillItGo
